import Mathlib

/-!
Verification of the craft-parts lifecycle manager and deb source handler.

This development shallowly embeds the behavior of
`craft_parts/lifecycle_manager.py` (the `LifecycleManager` constructor,
`_build_part`, `_validate_part_dependencies`, `get_primed_stage_packages`)
and `craft_parts/sources/deb_source.py` (`DebSource.__init__` and
`DebSource.provision`) as pure, executable Lean functions, and proves
properties of them.

Modeling conventions:
* Python `None` becomes `Option.none`; Python truthiness of optional
  strings, byte strings and integers is modeled explicitly (empty string,
  empty bytes and zero are falsy).
* Filesystem paths are strings; bytes values are `List Nat`.
* Collaborators that live outside the two embedded modules (the plugin
  registry `plugins.get_plugin_class`, pydantic property validation, the
  `Part` attribute computations `has_overlay` / `has_slices` /
  `has_chisel_as_build_snap`, the on-disk state store, and the
  platform/privilege environment probed by `_ensure_overlay_supported`)
  are parameters of the embedded functions, so every theorem quantifies
  over them.
* Construction is modeled as a pure function returning `Except`; an error
  result means no `Sequencer`/`Executor` configuration is produced, which
  is how "no state I/O happens and no executor action runs" is captured.
-/

namespace CraftParts

/-- Errors raised by the lifecycle manager module (`craft_parts.errors`
plus the builtin `ValueError`, identified by its message). -/
inductive LMError where
  | invalidApplicationName (name : String)
  | valueError (msg : String)
  | partSpecificationError (partName msg : String)
  | undefinedPlugin (partName : String)
  | invalidPlugin (pluginName partName : String)
  | pluginNotStrict (pluginName partName : String)
  | invalidPartName (name : String)
  | featureError (msg : String)
  | overlayPlatformError
  | overlayPermissionError
  deriving DecidableEq, Repr

def LMError.isPluginNotStrict : LMError → Bool
  | .pluginNotStrict _ _ => true
  | _ => false

def LMError.isInvalidPartName : LMError → Bool
  | .invalidPartName _ => true
  | _ => false

def LMError.isInvalidApplicationName : LMError → Bool
  | .invalidApplicationName _ => true
  | _ => false

/-- The part specification mapping for one part, already shaped: the
`plugin` key (`none` when the key is absent), the `after` dependency list,
and the information that in the source is later derived from the part's
other keys: whether the part participates in overlay, declares chisel
slices in its stage packages, and lists chisel among its build snaps. -/
structure PartSpecData where
  plugin : Option String
  after : List String
  overlay : Bool
  slices : Bool
  chiselSnap : Bool
  deriving DecidableEq, Repr

/-- A plugin class as seen by `_build_part`: its strict-mode capability
flag and its property validation (`properties_class.unmarshal`), abstracted
to a boolean predicate on the spec. -/
structure PluginClass where
  supports_strict_mode : Bool
  propertiesOk : PartSpecData → Bool

/-- The plugin registry `plugins.get_plugin_class`: `none` models the
`ValueError` raised for an unknown plugin name. -/
def Registry := String → Option PluginClass

/-- A constructed `Part` object, keeping the attributes the lifecycle
manager reads. -/
structure Part where
  name : String
  dependencies : List String
  has_overlay : Bool
  has_slices : Bool
  has_chisel_as_build_snap : Bool
  deriving DecidableEq, Repr

/-- The plugin name `_build_part` resolves for a part:
`spec.get("plugin", "")`, falling back to the part name when the value is
falsy (absent key or empty string). -/
def resolvedPluginName (name : String) (spec : PartSpecData) : String :=
  if spec.plugin.getD "" = "" then name else spec.plugin.getD ""

/-- `_build_part`: resolve the plugin name, look up the plugin class
(raising `UndefinedPlugin` when the name was defaulted from the part name
and `InvalidPlugin` when it was explicitly given), enforce strict mode,
validate plugin properties, and build the `Part`. -/
def buildPart (registry : Registry) (name : String) (spec : PartSpecData)
    (strict_plugins : Bool) : Except LMError Part :=
  let defaulted := spec.plugin.getD "" = ""
  let pluginName := resolvedPluginName name spec
  match registry pluginName with
  | none =>
    if defaulted then .error (.undefinedPlugin name)
    else .error (.invalidPlugin pluginName name)
  | some cls =>
    if strict_plugins && !cls.supports_strict_mode then
      .error (.pluginNotStrict pluginName name)
    else if !cls.propertiesOk spec then
      .error (.partSpecificationError name "validation error")
    else
      .ok { name := name, dependencies := spec.after,
            has_overlay := spec.overlay, has_slices := spec.slices,
            has_chisel_as_build_snap := spec.chiselSnap }

/-- `_validate_part_dependencies`: the first dependency name not present
among the part names of the specification raises `InvalidPartName`. -/
def validatePartDependencies (part : Part) (keys : List String) :
    Except LMError Unit :=
  match part.dependencies.find? (fun d => !(keys.contains d)) with
  | some d => .error (.invalidPartName d)
  | none => .ok ()

/-- One iteration of the construction loop: `_build_part` followed by
`_validate_part_dependencies`. -/
def buildOne (registry : Registry) (strict_plugins : Bool)
    (keys : List String) (ns : String × PartSpecData) : Except LMError Part :=
  match buildPart registry ns.1 ns.2 strict_plugins with
  | .error e => .error e
  | .ok p =>
    match validatePartDependencies p keys with
    | .error e => .error e
    | .ok _ => .ok p

/-- The construction loop over the parts mapping, in insertion order. -/
def buildPartList (registry : Registry) (strict_plugins : Bool)
    (keys : List String) :
    List (String × PartSpecData) → Except LMError (List Part)
  | [] => .ok []
  | ns :: rest =>
    match buildOne registry strict_plugins keys ns with
    | .error e => .error e
    | .ok p =>
      match buildPartList registry strict_plugins keys rest with
      | .error e => .error e
      | .ok ps => .ok (p :: ps)

/-- The host environment probed by `_ensure_overlay_supported`:
the overlay feature flag, the platform, and the effective uid. -/
structure OverlayEnv where
  enable_overlay : Bool
  is_linux : Bool
  euid_zero : Bool
  deriving DecidableEq, Repr

/-- `_ensure_overlay_supported`: `some e` is the error it raises,
`none` means overlays are supported. -/
def ensureOverlaySupported (env : OverlayEnv) : Option LMError :=
  if !env.enable_overlay then some (.featureError "Overlays are not supported.")
  else if !env.is_linux then some .overlayPlatformError
  else if !env.euid_zero then some .overlayPermissionError
  else none

/-- Python truthiness of an optional bytes value (`b""` is falsy). -/
def bytesTruthy : Option (List Nat) → Bool
  | none => false
  | some [] => false
  | some (_ :: _) => true

/-- Python truthiness of an optional string (`""` is falsy). -/
def strOptTruthy : Option String → Bool
  | none => false
  | some s => !s.isEmpty

/-- Python truthiness of an optional integer (`0` is falsy). -/
def intOptTruthy : Option Int → Bool
  | none => false
  | some n => !(n = 0)

/-- The arguments of `LifecycleManager.__init__` relevant to this
development. `allParts = none` models a parts dictionary missing the
`"parts"` key; `some pd` models `all_parts["parts"]` as an ordered
association list. -/
structure InitArgs where
  allParts : Option (List (String × PartSpecData))
  applicationName : String
  extraBuildSnaps : Option (List String)
  strictMode : Bool
  baseLayerDir : Option String
  baseLayerHash : Option (List Nat)

/-- What the constructor passes to `executor.Executor`. -/
structure ExecutorCfg where
  extraBuildSnaps : Option (List String)
  baseLayerDir : Option String
  baseLayerHash : Option (List Nat)
  deriving DecidableEq, Repr

/-- What the constructor passes to `sequencer.Sequencer`. -/
structure SequencerCfg where
  baseLayerHash : Option (List Nat)
  deriving DecidableEq, Repr

/-- A constructed `LifecycleManager`. -/
structure LCM where
  partList : List Part
  applicationName : String
  sequencerCfg : SequencerCfg
  executorCfg : ExecutorCfg
  deriving DecidableEq, Repr

/-- `re.match("^[A-Za-z][0-9A-Za-z_]*$", s)` on the whole string proper:
nonempty, a letter first, then letters, digits or underscores. -/
def appNameCore : List Char → Bool
  | [] => false
  | c :: rest =>
    (('A' ≤ c && c ≤ 'Z') || ('a' ≤ c && c ≤ 'z')) &&
      rest.all (fun d =>
        ('A' ≤ d && d ≤ 'Z') || ('a' ≤ d && d ≤ 'z') ||
        ('0' ≤ d && d ≤ '9') || (d == '_'))

/-- The application-name check of the constructor. In Python's `re`, `$`
(without `re.MULTILINE`) also matches just before a trailing newline, so a
name with one trailing newline is accepted as well. -/
def reMatchAppName (s : String) : Bool :=
  appNameCore s.data ||
    (s.data.getLast? == some '\n' && appNameCore s.data.dropLast)

/-- The `LayerHash`/configuration tail of the constructor: compute
`layer_hash` from the truthiness of `base_layer_hash` and assemble the
manager with the given executor inputs. -/
def mkLCM (a : InitArgs) (partList : List Part)
    (extraSnaps : Option (List String)) (dir : Option String) : LCM :=
  let layerHash := if bytesTruthy a.baseLayerHash then a.baseLayerHash else none
  { partList := partList
    applicationName := a.applicationName
    sequencerCfg := { baseLayerHash := layerHash }
    executorCfg := { extraBuildSnaps := extraSnaps, baseLayerDir := dir,
                     baseLayerHash := layerHash } }

/-- The chisel build-snap injection of the constructor: if some part
declares slices (`self._needs_chisel`) and no part already lists chisel as
a build snap (`self._has_chisel`), append `"chisel/latest/stable"` to the
extra build snaps (creating the list when it was `None`). -/
def chiselSnaps (a : InitArgs) (partList : List Part) : Option (List String) :=
  if partList.any (fun p => p.has_slices) &&
      !(partList.any fun p => p.has_chisel_as_build_snap) then
    some (a.extraBuildSnaps.getD [] ++ ["chisel/latest/stable"])
  else a.extraBuildSnaps

/-- The overlay checks and sequencer/executor assembly at the end of the
constructor: when some part has overlay, overlays must be supported by the
host, `base_layer_dir` must be given (`Path` objects are always truthy, so
truthiness is `isSome`) and `base_layer_hash` must be truthy; otherwise
`base_layer_dir` is reset to `None`. -/
def initTail (env : OverlayEnv) (a : InitArgs) (partList : List Part) :
    Except LMError LCM :=
  if partList.any (fun p => p.has_overlay) then
    match ensureOverlaySupported env with
    | some e => .error e
    | none =>
      if a.baseLayerDir.isNone then
        .error (.valueError "base_layer_dir must be specified if using overlays")
      else if !bytesTruthy a.baseLayerHash then
        .error (.valueError "base_layer_hash must be specified if using overlays")
      else .ok (mkLCM a partList (chiselSnaps a partList) a.baseLayerDir)
  else .ok (mkLCM a partList (chiselSnaps a partList) none)

/-- `LifecycleManager.__init__`, embedded as a pure function over the
plugin registry and the host environment. It follows the source order:
application-name check, `"parts"` key check, the `_build_part` /
`_validate_part_dependencies` loop, chisel build-snap injection, the
overlay checks, and finally the sequencer/executor configuration. -/
def lifecycleInit (registry : Registry) (env : OverlayEnv) (a : InitArgs) :
    Except LMError LCM :=
  if !reMatchAppName a.applicationName then
    .error (.invalidApplicationName a.applicationName)
  else
    match a.allParts with
    | none => .error (.valueError "parts definition is missing")
    | some partsData =>
      match buildPartList registry a.strictMode (partsData.map Prod.fst) partsData with
      | .error e => .error e
      | .ok partList => initTail env a partList

/-- The lifecycle `Step` enumeration. -/
inductive Step where
  | pull | overlay | build | stage | prime
  deriving DecidableEq, Repr

/-- The `PrimeState` payload read by `get_primed_stage_packages`. The
stored collection's order is arbitrary. -/
structure PrimeState where
  primed_stage_packages : List String
  deriving DecidableEq, Repr

/-- `part_by_name`: find the part with the given name in the part list,
raising `InvalidPartName` when missing. -/
def part_by_name (name : String) (l : List Part) : Except LMError Part :=
  match l.find? (fun p => p.name == name) with
  | some p => .ok p
  | none => .error (.invalidPartName name)

/-- `LifecycleManager.get_primed_stage_packages`: look up the part, load
its Prime step state from the store (`none` models no state on disk), and
return the sorted primed stage packages. -/
def get_primed_stage_packages (partList : List Part)
    (store : String → Step → Option PrimeState) (partName : String) :
    Except LMError (Option (List String)) :=
  match part_by_name partName partList with
  | .error e => .error e
  | .ok part =>
    match store part.name Step.prime with
    | none => .ok none
    | some st =>
      .ok (some (st.primed_stage_packages.insertionSort (fun a b => a ≤ b)))

/-- The error raised by `DebSource.__init__` via
`craft_parts.sources.errors.InvalidSourceOption`. -/
inductive SourceError where
  | invalidSourceOption (sourceType optionName : String)
  deriving DecidableEq, Repr

/-- `DebSource.__init__` after the base-class call: reject truthy
`source_tag`, `source_commit`, `source_branch` and `source_depth`, in that
order. -/
def debSourceInit (source_tag source_commit source_branch : Option String)
    (source_depth : Option Int) : Except SourceError Unit :=
  if strOptTruthy source_tag then
    .error (.invalidSourceOption "deb" "source-tag")
  else if strOptTruthy source_commit then
    .error (.invalidSourceOption "deb" "source-commit")
  else if strOptTruthy source_branch then
    .error (.invalidSourceOption "deb" "source-branch")
  else if intOptTruthy source_depth then
    .error (.invalidSourceOption "deb" "source-depth")
  else .ok ()

/-- A filesystem effect performed by `DebSource.provision`. -/
inductive FileOp where
  | extractDeb (debFile dst : String)
  | unlink (file : String)
  deriving DecidableEq, Repr

/-- `os.path.basename`: the component after the last slash. -/
def basename (p : String) : String :=
  ((p.splitOn "/").reverse).headD ""

/-- The deb file `provision` operates on: `src` when given, else
`part_src_dir / basename(source)`. -/
def debFileOf (source part_src_dir : String) (src : Option String) : String :=
  match src with
  | some s => s
  | none => part_src_dir ++ "/" ++ basename source

/-- `DebSource.provision`, as the ordered list of filesystem effects it
performs: extract the deb into `dst`, then delete the deb unless `keep`. -/
def provision (source part_src_dir dst : String) (keep : Bool)
    (src : Option String) : List FileOp :=
  let debFile := debFileOf source part_src_dir src
  [FileOp.extractDeb debFile dst] ++
    (if keep then [] else [FileOp.unlink debFile])

/-! ## Helper lemmas about the construction pipeline -/

/-- The fields of a `Part` returned by `_build_part` come from the spec. -/
theorem buildPart_ok_fields {registry : Registry} {n : String}
    {s : PartSpecData} {strict : Bool} {p : Part}
    (h : buildPart registry n s strict = .ok p) :
    p.name = n ∧ p.dependencies = s.after ∧ p.has_overlay = s.overlay ∧
      p.has_slices = s.slices ∧ p.has_chisel_as_build_snap = s.chiselSnap := by
  unfold buildPart at h
  dsimp only at h
  split at h
  · split at h <;> cases h
  · split at h
    · cases h
    · split at h
      · cases h
      · injection h with h
        subst h
        exact ⟨rfl, rfl, rfl, rfl, rfl⟩

/-- The errors `_build_part` can raise. -/
theorem buildPart_error_cases {registry : Registry} {n : String}
    {s : PartSpecData} {strict : Bool} {e : LMError}
    (h : buildPart registry n s strict = .error e) :
    e = .undefinedPlugin n ∨ (∃ p, e = .invalidPlugin p n) ∨
      ((∃ p, e = .pluginNotStrict p n) ∧ strict = true) ∨
      (∃ m, e = .partSpecificationError n m) := by
  unfold buildPart at h
  dsimp only at h
  split at h
  · split at h
    · injection h with h
      exact Or.inl h.symm
    · injection h with h
      exact Or.inr (Or.inl ⟨_, h.symm⟩)
  · split at h
    · rename_i hcond
      injection h with h
      have hs : strict = true := by
        have := hcond
        simp only [Bool.and_eq_true] at this
        exact this.1
      exact Or.inr (Or.inr (Or.inl ⟨⟨_, h.symm⟩, hs⟩))
    · split at h
      · injection h with h
        exact Or.inr (Or.inr (Or.inr ⟨_, h.symm⟩))
      · cases h

/-- The shape of errors produced by one iteration of the construction
loop: never `InvalidApplicationName`; `PluginNotStrict` only in strict
mode; `InvalidPartName d` only for a dependency `d` of the part that is
not among the specification's part names. -/
theorem buildOne_error_shape {registry : Registry} {strict : Bool}
    {keys : List String} {ns : String × PartSpecData} {e : LMError}
    (h : buildOne registry strict keys ns = .error e) :
    e.isInvalidApplicationName = false ∧
      (strict = false → e.isPluginNotStrict = false) ∧
      (∀ d, e = .invalidPartName d →
        d ∈ ns.2.after ∧ keys.contains d = false) := by
  unfold buildOne at h
  split at h
  · rename_i e1 he1
    injection h with h
    subst h
    rcases buildPart_error_cases he1 with h | ⟨p, h⟩ | ⟨⟨p, h⟩, hs⟩ | ⟨m, h⟩ <;>
      subst h
    · exact ⟨rfl, fun _ => rfl, fun d hd => by cases hd⟩
    · exact ⟨rfl, fun _ => rfl, fun d hd => by cases hd⟩
    · refine ⟨rfl, fun hf => ?_, fun d hd => by cases hd⟩
      rw [hf] at hs
      cases hs
    · exact ⟨rfl, fun _ => rfl, fun d hd => by cases hd⟩
  · rename_i p hp
    split at h
    · rename_i e2 he2
      injection h with h
      subst h
      unfold validatePartDependencies at he2
      split at he2
      · rename_i d hd
        injection he2 with he2
        subst he2
        refine ⟨rfl, fun _ => rfl, fun q hq => ?_⟩
        injection hq with hq
        subst hq
        have hmem := List.mem_of_find?_eq_some hd
        have hpred := List.find?_some hd
        simp only [Bool.not_eq_true'] at hpred
        rw [(buildPart_ok_fields hp).2.1] at hmem
        exact ⟨hmem, hpred⟩
      · cases he2
    · cases h

/-- An error of the construction loop comes from some entry of the parts
mapping. -/
theorem buildPartList_error_cases {registry : Registry} {strict : Bool}
    {keys : List String} :
    ∀ (l : List (String × PartSpecData)) {e : LMError},
      buildPartList registry strict keys l = .error e →
      ∃ ns ∈ l, buildOne registry strict keys ns = .error e
  | [], _, h => by cases h
  | ns :: rest, e, h => by
    unfold buildPartList at h
    split at h
    · rename_i e1 he1
      injection h with h
      subst h
      exact ⟨ns, List.mem_cons_self ns rest, he1⟩
    · rename_i p hp
      split at h
      · rename_i e2 he2
        injection h with h
        subst h
        obtain ⟨x, hx, hxe⟩ := buildPartList_error_cases rest he2
        exact ⟨x, List.mem_cons_of_mem ns hx, hxe⟩
      · cases h

/-- If every entry before `x` succeeds and `x` fails, the construction
loop fails with `x`'s error. -/
theorem buildPartList_error_append {registry : Registry} {strict : Bool}
    {keys : List String} (pre : List (String × PartSpecData))
    (x : String × PartSpecData) (post : List (String × PartSpecData))
    {e : LMError}
    (hpre : ∀ y ∈ pre, ∃ p, buildOne registry strict keys y = .ok p)
    (hx : buildOne registry strict keys x = .error e) :
    buildPartList registry strict keys (pre ++ x :: post) = .error e := by
  induction pre with
  | nil => simp [buildPartList, hx]
  | cons y ys ih =>
    obtain ⟨p, hp⟩ := hpre y (List.mem_cons_self y ys)
    have hrest := ih (fun z hz => hpre z (List.mem_cons_of_mem y hz))
    simp [buildPartList, hp, hrest]

/-- `_ensure_overlay_supported` raises only its three documented errors. -/
theorem ensureOverlaySupported_error_shape {env : OverlayEnv} {e : LMError}
    (h : ensureOverlaySupported env = some e) :
    e = .featureError "Overlays are not supported." ∨
      e = .overlayPlatformError ∨ e = .overlayPermissionError := by
  unfold ensureOverlaySupported at h
  split_ifs at h
  · exact Or.inl (Option.some.inj h).symm
  · exact Or.inr (Or.inl (Option.some.inj h).symm)
  · exact Or.inr (Or.inr (Option.some.inj h).symm)

/-- The errors the constructor tail can raise. -/
theorem initTail_error_cases {env : OverlayEnv} {a : InitArgs}
    {pl : List Part} {e : LMError} (h : initTail env a pl = .error e) :
    ensureOverlaySupported env = some e ∨
      e = .valueError "base_layer_dir must be specified if using overlays" ∨
      e = .valueError "base_layer_hash must be specified if using overlays" := by
  unfold initTail at h
  split at h
  · split at h
    · rename_i henv
      injection h with h
      subst h
      exact Or.inl henv
    · split at h
      · injection h with h
        exact Or.inr (Or.inl h.symm)
      · split at h
        · injection h with h
          exact Or.inr (Or.inr h.symm)
        · cases h
  · cases h

/-- A successful constructor tail assembles the manager from the part
list, the chisel-adjusted snaps, and some base layer dir. -/
theorem initTail_ok_cases {env : OverlayEnv} {a : InitArgs}
    {pl : List Part} {m : LCM} (h : initTail env a pl = .ok m) :
    ∃ dir, m = mkLCM a pl (chiselSnaps a pl) dir := by
  unfold initTail at h
  split at h
  · split at h
    · cases h
    · split at h
      · cases h
      · split at h
        · cases h
        · injection h with h
          exact ⟨a.baseLayerDir, h.symm⟩
  · injection h with h
    exact ⟨none, h.symm⟩

/-- Deconstruction of any error of the embedded constructor. -/
theorem lifecycleInit_error_cases {registry : Registry} {env : OverlayEnv}
    {a : InitArgs} {e : LMError}
    (h : lifecycleInit registry env a = .error e) :
    (e = .invalidApplicationName a.applicationName ∧
        reMatchAppName a.applicationName = false) ∨
      (e = .valueError "parts definition is missing" ∧ a.allParts = none) ∨
      (∃ pd ns, a.allParts = some pd ∧ ns ∈ pd ∧
        buildOne registry a.strictMode (pd.map Prod.fst) ns = .error e) ∨
      ensureOverlaySupported env = some e ∨
      e = .valueError "base_layer_dir must be specified if using overlays" ∨
      e = .valueError "base_layer_hash must be specified if using overlays" := by
  unfold lifecycleInit at h
  split at h
  · rename_i hname
    injection h with h
    refine Or.inl ⟨h.symm, ?_⟩
    simpa using hname
  · split at h
    · rename_i hnone
      injection h with h
      exact Or.inr (Or.inl ⟨h.symm, hnone⟩)
    · rename_i pd hpd
      split at h
      · rename_i e1 he1
        injection h with h
        subst h
        obtain ⟨ns, hns, hone⟩ := buildPartList_error_cases pd he1
        exact Or.inr (Or.inr (Or.inl ⟨pd, ns, hpd, hns, hone⟩))
      · rcases initTail_error_cases h with h | h | h
        · exact Or.inr (Or.inr (Or.inr (Or.inl h)))
        · exact Or.inr (Or.inr (Or.inr (Or.inr (Or.inl h))))
        · exact Or.inr (Or.inr (Or.inr (Or.inr (Or.inr h))))

/-- Deconstruction of any success of the embedded constructor. -/
theorem lifecycleInit_ok_cases {registry : Registry} {env : OverlayEnv}
    {a : InitArgs} {m : LCM} (h : lifecycleInit registry env a = .ok m) :
    ∃ pd pl, a.allParts = some pd ∧
      buildPartList registry a.strictMode (pd.map Prod.fst) pd = .ok pl ∧
      initTail env a pl = .ok m := by
  unfold lifecycleInit at h
  split at h
  · cases h
  · split at h
    · cases h
    · rename_i pd hpd
      split at h
      · cases h
      · rename_i pl hpl
        exact ⟨pd, pl, hpd, hpl, h⟩

/-! ## Concrete fixtures used to instantiate theorems -/

/-- A registry with a strict-capable plugin `nil` and a plugin `lax` that
does not support strict mode. -/
def demoRegistry : Registry := fun n =>
  if n = "nil" then some { supports_strict_mode := true, propertiesOk := fun _ => true }
  else if n = "lax" then some { supports_strict_mode := false, propertiesOk := fun _ => true }
  else none

/-- A host environment on which overlays are supported. -/
def demoEnv : OverlayEnv :=
  { enable_overlay := true, is_linux := true, euid_zero := true }

/-! ## Claims -/

/-- Claim C1: for every part whose specification mapping lacks an explicit
`plugin` key, the plugin name used is the part's own name, and if that
name does not resolve to a known plugin class, `_build_part` fails with
`UndefinedPlugin`; if the plugin key was explicitly given (a nonempty
plugin name — the source treats an empty string like an absent key via
truthiness) and does not resolve, it fails instead with `InvalidPlugin`. -/
theorem c1_plugin_resolution (registry : Registry) (name : String)
    (spec : PartSpecData) (strict_plugins : Bool) :
    (spec.plugin = none →
      resolvedPluginName name spec = name ∧
      (registry name = none →
        buildPart registry name spec strict_plugins =
          .error (.undefinedPlugin name))) ∧
    (∀ p, spec.plugin = some p → p ≠ "" → registry p = none →
      buildPart registry name spec strict_plugins =
        .error (.invalidPlugin p name)) := by
  constructor
  · intro h
    refine ⟨by simp [resolvedPluginName, h], fun hr => ?_⟩
    simp [buildPart, resolvedPluginName, h, hr]
  · intro p hp hne hr
    simp [buildPart, resolvedPluginName, hp, hne, hr]

/-- Witness for C1 at concrete inputs: with an empty registry, part `foo`
without a plugin key fails with `UndefinedPlugin foo`, and with explicit
plugin `bar` it fails with `InvalidPlugin bar foo`. -/
theorem c1_plugin_resolution_witness :
    buildPart (fun _ => none) "foo"
      { plugin := none, after := [], overlay := false, slices := false,
        chiselSnap := false } false = .error (.undefinedPlugin "foo") ∧
    buildPart (fun _ => none) "foo"
      { plugin := some "bar", after := [], overlay := false, slices := false,
        chiselSnap := false } false = .error (.invalidPlugin "bar" "foo") :=
  ⟨((c1_plugin_resolution (fun _ => none) "foo"
      { plugin := none, after := [], overlay := false, slices := false,
        chiselSnap := false } false).1 rfl).2 rfl,
   (c1_plugin_resolution (fun _ => none) "foo"
      { plugin := some "bar", after := [], overlay := false, slices := false,
        chiselSnap := false } false).2 "bar" rfl (by decide) rfl⟩

/-- Claim C2: constructing a deb source with any of `source-tag`,
`source-commit`, `source-branch` or `source-depth` supplied (a truthy
value, matching the source's `if option:` tests) raises
`InvalidSourceOption` with source type `deb` and the name of the offending
option; in particular `source-tag='v1'` raises
`InvalidSourceOption(source_type='deb', option='source-tag')`. -/
theorem c2_deb_option_rejection
    (source_tag source_commit source_branch : Option String)
    (source_depth : Option Int) :
    ((strOptTruthy source_tag = true ∨ strOptTruthy source_commit = true ∨
        strOptTruthy source_branch = true ∨ intOptTruthy source_depth = true) →
      ∃ opt, debSourceInit source_tag source_commit source_branch source_depth =
          .error (.invalidSourceOption "deb" opt) ∧
        ((opt = "source-tag" ∧ strOptTruthy source_tag = true) ∨
         (opt = "source-commit" ∧ strOptTruthy source_commit = true) ∨
         (opt = "source-branch" ∧ strOptTruthy source_branch = true) ∨
         (opt = "source-depth" ∧ intOptTruthy source_depth = true))) ∧
    debSourceInit (some "v1") none none none =
      .error (.invalidSourceOption "deb" "source-tag") := by
  refine ⟨fun h => ?_, rfl⟩
  by_cases h1 : strOptTruthy source_tag = true
  · exact ⟨"source-tag", by simp [debSourceInit, h1], Or.inl ⟨rfl, h1⟩⟩
  · by_cases h2 : strOptTruthy source_commit = true
    · exact ⟨"source-commit", by simp [debSourceInit, h1, h2],
        Or.inr (Or.inl ⟨rfl, h2⟩)⟩
    · by_cases h3 : strOptTruthy source_branch = true
      · exact ⟨"source-branch", by simp [debSourceInit, h1, h2, h3],
          Or.inr (Or.inr (Or.inl ⟨rfl, h3⟩))⟩
      · have h4 : intOptTruthy source_depth = true := by
          rcases h with h | h | h | h
          · exact absurd h h1
          · exact absurd h h2
          · exact absurd h h3
          · exact h
        exact ⟨"source-depth", by simp [debSourceInit, h1, h2, h3, h4],
          Or.inr (Or.inr (Or.inr ⟨rfl, h4⟩))⟩

/-- Witness for C2: the concrete `source-tag='v1'` construction. -/
theorem c2_deb_option_rejection_witness :
    ∃ opt, debSourceInit (some "v1") none none none =
        .error (.invalidSourceOption "deb" opt) ∧
      ((opt = "source-tag" ∧ strOptTruthy (some "v1") = true) ∨
       (opt = "source-commit" ∧ strOptTruthy none = true) ∨
       (opt = "source-branch" ∧ strOptTruthy none = true) ∨
       (opt = "source-depth" ∧ intOptTruthy none = true)) :=
  (c2_deb_option_rejection (some "v1") none none none).1 (Or.inl (by decide))

/-- Claim C8: `provision` extracts the deb file into the destination
directory, and deletes the deb artifact exactly when `keep` is false. -/
theorem c8_provision_effects (source part_src_dir dst : String) (keep : Bool)
    (src : Option String) :
    FileOp.extractDeb (debFileOf source part_src_dir src) dst ∈
        provision source part_src_dir dst keep src ∧
      (FileOp.unlink (debFileOf source part_src_dir src) ∈
          provision source part_src_dir dst keep src ↔ keep = false) := by
  constructor
  · simp [provision]
  · cases keep <;> simp [provision]

/-- Claim C9: the application name must pass the
`^[A-Za-z][0-9A-Za-z_]*$` check (with Python's `re` semantics for `$`);
otherwise construction fails with `InvalidApplicationName`, and this check
comes before any other processing — the first conjunct holds for every
registry, environment, and argument set, including ones whose parts data
is missing or invalid, and the second shows `InvalidApplicationName` can
arise from no other check. -/
theorem c9_application_name (registry : Registry) (env : OverlayEnv)
    (a : InitArgs) :
    (reMatchAppName a.applicationName = false →
      lifecycleInit registry env a =
        .error (.invalidApplicationName a.applicationName)) ∧
    (∀ n, lifecycleInit registry env a = .error (.invalidApplicationName n) →
      reMatchAppName a.applicationName = false ∧ n = a.applicationName) := by
  constructor
  · intro h
    simp [lifecycleInit, h]
  · intro n h
    rcases lifecycleInit_error_cases h with ⟨he, hm⟩ | ⟨he, _⟩ |
        ⟨pd, ns, _, _, hone⟩ | he | he | he
    · injection he with he
      exact ⟨hm, he⟩
    · cases he
    · have := (buildOne_error_shape hone).1
      cases this
    · rcases ensureOverlaySupported_error_shape he with h1 | h1 | h1 <;> cases h1
    · cases he
    · cases he

/-- Witness for C9: the invalid name `"9lives"` (starts with a digit) is
rejected regardless of the rest of the arguments. -/
theorem c9_application_name_witness :
    lifecycleInit demoRegistry demoEnv
      { allParts := none, applicationName := "9lives", extraBuildSnaps := none,
        strictMode := false, baseLayerDir := none, baseLayerHash := none } =
      .error (.invalidApplicationName "9lives") :=
  (c9_application_name demoRegistry demoEnv
    { allParts := none, applicationName := "9lives", extraBuildSnaps := none,
      strictMode := false, baseLayerDir := none, baseLayerHash := none }).1
    (by decide)

/-- Claim C10: for a part of the manager, `get_primed_stage_packages`
returns `None` when no `Prime` state record exists, and otherwise the
part's primed stage packages sorted in ascending order — a permutation of
the stored collection — so the result is the same for any two stored
orders of the same collection. -/
theorem c10_get_primed_stage_packages (partList : List Part)
    (store : String → Step → Option PrimeState) (partName : String) (p : Part)
    (hp : partList.find? (fun q => q.name == partName) = some p) :
    (store p.name Step.prime = none →
      get_primed_stage_packages partList store partName = .ok none) ∧
    (∀ st, store p.name Step.prime = some st →
      get_primed_stage_packages partList store partName =
        .ok (some (st.primed_stage_packages.insertionSort (fun a b => a ≤ b))) ∧
      (st.primed_stage_packages.insertionSort (fun a b => a ≤ b)).Sorted
        (fun a b => a ≤ b) ∧
      (st.primed_stage_packages.insertionSort (fun a b => a ≤ b)).Perm
        st.primed_stage_packages) ∧
    (∀ l1 l2 : List String, l1.Perm l2 →
      l1.insertionSort (fun a b => a ≤ b) =
        l2.insertionSort (fun a b => a ≤ b)) := by
  refine ⟨fun h => ?_, fun st h => ⟨?_, ?_, ?_⟩, fun l1 l2 hperm => ?_⟩
  · simp [get_primed_stage_packages, part_by_name, hp, h]
  · simp [get_primed_stage_packages, part_by_name, hp, h]
  · exact List.sorted_insertionSort _ _
  · exact List.perm_insertionSort _ _
  · exact List.eq_of_perm_of_sorted
      ((List.perm_insertionSort _ l1).trans
        (hperm.trans (List.perm_insertionSort _ l2).symm))
      (List.sorted_insertionSort _ l1) (List.sorted_insertionSort _ l2)

/-- Witness for C10: a single part `hello` with stored primed packages
`["b", "a"]` yields the sorted `["a", "b"]`, and an absent record yields
`None`. -/
theorem c10_get_primed_stage_packages_witness :
    get_primed_stage_packages
      [{ name := "hello", dependencies := [], has_overlay := false,
         has_slices := false, has_chisel_as_build_snap := false }]
      (fun n s => match s with
        | Step.prime =>
          if n == "hello" then some { primed_stage_packages := ["b", "a"] }
          else none
        | _ => none) "hello" = .ok (some ["a", "b"]) := by
  have h := ((c10_get_primed_stage_packages
      [{ name := "hello", dependencies := [], has_overlay := false,
         has_slices := false, has_chisel_as_build_snap := false }]
      (fun n s => match s with
        | Step.prime =>
          if n == "hello" then some { primed_stage_packages := ["b", "a"] }
          else none
        | _ => none) "hello"
      { name := "hello", dependencies := [], has_overlay := false,
        has_slices := false, has_chisel_as_build_snap := false }
      (by decide)).2.1 { primed_stage_packages := ["b", "a"] } rfl).1
  have hab : ("a" : String) < "b" := by
    rw [String.lt_iff_toList_lt]
    exact List.Lex.rel (by decide)
  have hba : ¬ (("b" : String) ≤ "a") := fun hle => hle hab
  have hs : List.insertionSort (fun a b : String => a ≤ b) ["b", "a"] = ["a", "b"] := by
    simp [List.insertionSort, List.orderedInsert, hba]
  rw [h]
  exact congrArg (fun l => Except.ok (some l)) hs

/-- Claim C3 fixture: one part using plugin `nil` that participates in
overlay. -/
def c3OverlaySpec : PartSpecData :=
  { plugin := some "nil", after := [], overlay := true, slices := false,
    chiselSnap := false }

/-- Claim C3 fixture: arguments with an overlay part and no
`base_layer_dir`. -/
def c3Args : InitArgs :=
  { allParts := some [("p", c3OverlaySpec)], applicationName := "app",
    extraBuildSnaps := none, strictMode := false, baseLayerDir := none,
    baseLayerHash := some [1] }

/-- Claim C3: when some part participates in overlay (and overlays are
supported on the host, which the source checks first), a missing
`base_layer_dir` makes construction fail with the
"base_layer_dir must be specified" `ValueError`. The constructor is a pure
function here: an error result means no `Sequencer`/`Executor`
configuration is built, so no state is read or written and no executor
action runs. -/
theorem c3_overlay_requires_base_dir (registry : Registry) (env : OverlayEnv)
    (a : InitArgs) (pd : List (String × PartSpecData)) (pl : List Part)
    (happ : reMatchAppName a.applicationName = true)
    (hpd : a.allParts = some pd)
    (hbuild : buildPartList registry a.strictMode (pd.map Prod.fst) pd = .ok pl)
    (hov : pl.any (fun p => p.has_overlay) = true)
    (henv : ensureOverlaySupported env = none)
    (hdir : a.baseLayerDir = none) :
    lifecycleInit registry env a =
      .error (.valueError "base_layer_dir must be specified if using overlays") := by
  simp [lifecycleInit, initTail, happ, hpd, hbuild, hov, henv, hdir]

/-- Witness for C3: the concrete overlay part without a base layer dir. -/
theorem c3_overlay_requires_base_dir_witness :
    lifecycleInit demoRegistry demoEnv c3Args =
      .error (.valueError "base_layer_dir must be specified if using overlays") :=
  c3_overlay_requires_base_dir demoRegistry demoEnv c3Args
    [("p", c3OverlaySpec)]
    [{ name := "p", dependencies := [], has_overlay := true,
       has_slices := false, has_chisel_as_build_snap := false }]
    (by decide) rfl rfl rfl rfl rfl

/-- Claim C4 fixture: a part that does not participate in overlay. -/
def c4Spec : PartSpecData :=
  { plugin := some "nil", after := [], overlay := false, slices := false,
    chiselSnap := false }

/-- Claim C4 fixture: arguments supplying `base_layer_dir` but no
`base_layer_hash`, with no overlay part. -/
def c4Args : InitArgs :=
  { allParts := some [("q", c4Spec)], applicationName := "app",
    extraBuildSnaps := none, strictMode := false,
    baseLayerDir := some "/base", baseLayerHash := none }

/-- Claim C4 fixture: the part built from `c4Spec`. -/
def c4Part : Part :=
  { name := "q", dependencies := [], has_overlay := false,
    has_slices := false, has_chisel_as_build_snap := false }

/-- Counterexample to claim C4: construction succeeds although exactly one
of `base_layer_dir` / `base_layer_hash` is supplied — the coupling is not
enforced when no part participates in overlay. -/
theorem c4_base_layer_coupling_counterexample :
    c4Args.baseLayerDir = some "/base" ∧ c4Args.baseLayerHash = none ∧
      (lifecycleInit demoRegistry demoEnv c4Args).isOk = true :=
  ⟨rfl, rfl, rfl⟩

/-- Claim C4 (amended): the base layer dir/hash coupling is enforced only
when some part participates in overlay — then a missing `base_layer_dir`
or a missing (or empty) `base_layer_hash` fails construction with the
corresponding "must be specified" error; when no part participates in
overlay, supplying exactly one of the two is accepted and `base_layer_dir`
is discarded (the executor receives `None` for it). -/
theorem c4_base_layer_coupling_amended (registry : Registry)
    (env : OverlayEnv) (a : InitArgs) (pd : List (String × PartSpecData))
    (pl : List Part)
    (happ : reMatchAppName a.applicationName = true)
    (hpd : a.allParts = some pd)
    (hbuild : buildPartList registry a.strictMode (pd.map Prod.fst) pd = .ok pl) :
    (pl.any (fun p => p.has_overlay) = true →
      ensureOverlaySupported env = none →
      ((a.baseLayerDir = none →
          lifecycleInit registry env a =
            .error (.valueError "base_layer_dir must be specified if using overlays")) ∧
        (a.baseLayerDir.isSome = true → bytesTruthy a.baseLayerHash = false →
          lifecycleInit registry env a =
            .error (.valueError "base_layer_hash must be specified if using overlays")))) ∧
    (pl.any (fun p => p.has_overlay) = false →
      lifecycleInit registry env a = .ok (mkLCM a pl (chiselSnaps a pl) none) ∧
      (mkLCM a pl (chiselSnaps a pl) none).executorCfg.baseLayerDir = none) := by
  constructor
  · intro hov henv
    constructor
    · intro hdir
      simp [lifecycleInit, initTail, happ, hpd, hbuild, hov, henv, hdir]
    · intro hdir hhash
      rcases hO : a.baseLayerDir with _ | d
      · rw [hO] at hdir
        cases hdir
      · simp [lifecycleInit, initTail, happ, hpd, hbuild, hov, henv, hO, hhash]
  · intro hov
    exact ⟨by simp [lifecycleInit, initTail, happ, hpd, hbuild, hov], rfl⟩

/-- Witness for the amended C4: the concrete no-overlay construction with
only `base_layer_dir` supplied succeeds and the executor gets `None`. -/
theorem c4_base_layer_coupling_amended_witness :
    lifecycleInit demoRegistry demoEnv c4Args =
      .ok (mkLCM c4Args [c4Part] (chiselSnaps c4Args [c4Part]) none) ∧
    (mkLCM c4Args [c4Part] (chiselSnaps c4Args [c4Part])
      none).executorCfg.baseLayerDir = none :=
  (c4_base_layer_coupling_amended demoRegistry demoEnv c4Args
    [("q", c4Spec)] [c4Part] (by decide) rfl rfl).2 rfl

/-- Claim C5: with strict mode enabled, a part (whose predecessors in the
mapping all construct) resolving to a plugin class without strict-mode
capability makes construction fail with `PluginNotStrict` carrying the
plugin and part names; with strict mode disabled no `PluginNotStrict` is
ever raised. -/
theorem c5_strict_mode_enforcement (registry : Registry) (env : OverlayEnv)
    (a : InitArgs) :
    (a.strictMode = true → ∀ pre n s post cls,
      a.allParts = some (pre ++ (n, s) :: post) →
      reMatchAppName a.applicationName = true →
      (∀ y ∈ pre, ∃ p,
        buildOne registry true ((pre ++ (n, s) :: post).map Prod.fst) y = .ok p) →
      registry (resolvedPluginName n s) = some cls →
      cls.supports_strict_mode = false →
      lifecycleInit registry env a =
        .error (.pluginNotStrict (resolvedPluginName n s) n)) ∧
    (a.strictMode = false → ∀ e, lifecycleInit registry env a = .error e →
      e.isPluginNotStrict = false) := by
  constructor
  · intro hstrict pre n s post cls hpd happ hpre hcls hsup
    have hbp : buildPart registry n s true =
        .error (.pluginNotStrict (resolvedPluginName n s) n) := by
      unfold buildPart
      dsimp only
      rw [hcls]
      simp [hsup]
    have hone : buildOne registry true ((pre ++ (n, s) :: post).map Prod.fst)
        (n, s) = .error (.pluginNotStrict (resolvedPluginName n s) n) := by
      simp [buildOne, hbp]
    have hlist := buildPartList_error_append pre (n, s) post hpre hone
    simp only [lifecycleInit, hpd, happ, hstrict, Bool.not_true,
      Bool.false_eq_true, if_false]
    rw [hlist]
  · intro hstrict e h
    rcases lifecycleInit_error_cases h with ⟨he, _⟩ | ⟨he, _⟩ |
        ⟨pd, ns, _, _, hone⟩ | he | he | he
    · subst he; rfl
    · subst he; rfl
    · rw [hstrict] at hone
      exact (buildOne_error_shape hone).2.1 rfl
    · rcases ensureOverlaySupported_error_shape he with h1 | h1 | h1 <;>
        (subst h1; rfl)
    · subst he; rfl
    · subst he; rfl

/-- Claim C5 fixture: a part using the non-strict plugin `lax`. -/
def c5Spec : PartSpecData :=
  { plugin := some "lax", after := [], overlay := false, slices := false,
    chiselSnap := false }

/-- Claim C5 fixture: strict-mode arguments for part `P`. -/
def c5Args : InitArgs :=
  { allParts := some [("P", c5Spec)], applicationName := "app",
    extraBuildSnaps := none, strictMode := true, baseLayerDir := none,
    baseLayerHash := none }

/-- Claim C5 fixture: the plugin class of `lax`. -/
def c5Cls : PluginClass :=
  { supports_strict_mode := false, propertiesOk := fun _ => true }

/-- Witness for C5: spec uses plugin `lax` with
`supports_strict_mode=false`; construction with strict mode raises
`PluginNotStrict(plugin='lax', part='P')`. -/
theorem c5_strict_mode_enforcement_witness :
    lifecycleInit demoRegistry demoEnv c5Args =
      .error (.pluginNotStrict "lax" "P") :=
  (c5_strict_mode_enforcement demoRegistry demoEnv c5Args).1 rfl
    [] "P" c5Spec [] c5Cls rfl (by decide) (by simp) rfl rfl

/-- Claim C6: on a successful construction, the extra build snaps handed
to the Executor are the caller's extra build snaps, with
`chisel/latest/stable` appended exactly when some part declares slices and
no part already lists chisel as a build snap; otherwise they are passed
through unchanged. -/
theorem c6_chisel_injection (registry : Registry) (env : OverlayEnv)
    (a : InitArgs) (m : LCM) (h : lifecycleInit registry env a = .ok m) :
    m.executorCfg.extraBuildSnaps =
      (if m.partList.any (fun p => p.has_slices) &&
          !(m.partList.any fun p => p.has_chisel_as_build_snap) then
        some (a.extraBuildSnaps.getD [] ++ ["chisel/latest/stable"])
      else a.extraBuildSnaps) := by
  obtain ⟨pd, pl, _, _, htail⟩ := lifecycleInit_ok_cases h
  obtain ⟨dir, hm⟩ := initTail_ok_cases htail
  subst hm
  simp [mkLCM, chiselSnaps]

/-- Claim C6 fixture: a part that declares slices. -/
def c6Spec : PartSpecData :=
  { plugin := some "nil", after := [], overlay := false, slices := true,
    chiselSnap := false }

/-- Claim C6 fixture: arguments with no caller-supplied build snaps. -/
def c6Args : InitArgs :=
  { allParts := some [("s", c6Spec)], applicationName := "app",
    extraBuildSnaps := none, strictMode := false, baseLayerDir := none,
    baseLayerHash := none }

/-- Claim C6 fixture: the part built from `c6Spec`. -/
def c6Part : Part :=
  { name := "s", dependencies := [], has_overlay := false,
    has_slices := true, has_chisel_as_build_snap := false }

/-- Claim C6 fixture: the manager built from `c6Args`. -/
def c6LCM : LCM := mkLCM c6Args [c6Part] (chiselSnaps c6Args [c6Part]) none

/-- Witness for C6: with a slices part and no caller snaps, the executor
receives exactly `["chisel/latest/stable"]`. -/
theorem c6_chisel_injection_witness :
    lifecycleInit demoRegistry demoEnv c6Args = .ok c6LCM ∧
      c6LCM.executorCfg.extraBuildSnaps = some ["chisel/latest/stable"] := by
  have h : lifecycleInit demoRegistry demoEnv c6Args = .ok c6LCM := rfl
  have h2 := c6_chisel_injection demoRegistry demoEnv c6Args c6LCM h
  refine ⟨h, ?_⟩
  rw [h2]
  rfl

/-- Claim C7: a dependency name not among the specification's part names
makes construction fail with `InvalidPartName` naming the (first) missing
dependency; when every dependency of every part resolves, construction
never fails with `InvalidPartName`. -/
theorem c7_dependency_validation (registry : Registry) (env : OverlayEnv)
    (a : InitArgs) (pd : List (String × PartSpecData))
    (hpd : a.allParts = some pd)
    (happ : reMatchAppName a.applicationName = true) :
    (∀ pre n s post p d, pd = pre ++ (n, s) :: post →
      (∀ y ∈ pre, ∃ q,
        buildOne registry a.strictMode (pd.map Prod.fst) y = .ok q) →
      buildPart registry n s a.strictMode = .ok p →
      p.dependencies.find? (fun x => !((pd.map Prod.fst).contains x)) = some d →
      lifecycleInit registry env a = .error (.invalidPartName d)) ∧
    ((∀ x ∈ pd, ∀ q ∈ x.2.after, q ∈ pd.map Prod.fst) →
      ∀ d, lifecycleInit registry env a ≠ .error (.invalidPartName d)) := by
  constructor
  · intro pre n s post p d hsplit hpre hbp hfind
    have hvd : validatePartDependencies p (pd.map Prod.fst) =
        .error (.invalidPartName d) := by
      unfold validatePartDependencies
      rw [hfind]
    have hone : buildOne registry a.strictMode (pd.map Prod.fst) (n, s) =
        .error (.invalidPartName d) := by
      unfold buildOne
      rw [hbp]
      dsimp only
      rw [hvd]
    subst hsplit
    have hlist := buildPartList_error_append pre (n, s) post hpre hone
    simp only [lifecycleInit, hpd, happ, Bool.not_true,
      Bool.false_eq_true, if_false]
    rw [hlist]
  · intro hdeps d h
    rcases lifecycleInit_error_cases h with ⟨he, _⟩ | ⟨he, _⟩ |
        ⟨pd2, ns, hpd2, hns, hone⟩ | he | he | he
    · cases he
    · cases he
    · rw [hpd] at hpd2
      injection hpd2 with hpd2
      subst hpd2
      obtain ⟨hmem, hcont⟩ := (buildOne_error_shape hone).2.2 d rfl
      have hd : d ∈ pd.map Prod.fst := hdeps ns hns d hmem
      have hc : (pd.map Prod.fst).contains d = true := by
        simpa using hd
      rw [hc] at hcont
      cases hcont
    · rcases ensureOverlaySupported_error_shape he with h1 | h1 | h1 <;> cases h1
    · cases he
    · cases he

/-- Claim C7 fixture: a part depending on an absent part `missing`. -/
def c7Spec : PartSpecData :=
  { plugin := some "nil", after := ["missing"], overlay := false,
    slices := false, chiselSnap := false }

/-- Claim C7 fixture: arguments with that single part. -/
def c7Args : InitArgs :=
  { allParts := some [("p", c7Spec)], applicationName := "app",
    extraBuildSnaps := none, strictMode := false, baseLayerDir := none,
    baseLayerHash := none }

/-- Claim C7 fixture: the part built from `c7Spec`. -/
def c7Part : Part :=
  { name := "p", dependencies := ["missing"], has_overlay := false,
    has_slices := false, has_chisel_as_build_snap := false }

/-- Witness for C7: the dependency `missing` of part `p` fails
construction with `InvalidPartName missing`. -/
theorem c7_dependency_validation_witness :
    lifecycleInit demoRegistry demoEnv c7Args =
      .error (.invalidPartName "missing") :=
  (c7_dependency_validation demoRegistry demoEnv c7Args [("p", c7Spec)]
    rfl (by decide)).1 [] "p" c7Spec [] c7Part "missing" rfl (by simp) rfl rfl

end CraftParts
